import Mathlib

/-!
Verification of `llama_index/chat_engine/react.py` (`ReActChatEngine`),
a thin configuration-and-delegation wrapper over an external LangChain
agent framework.

Python object identity matters for the reset/reconstruction claims, so
constructors thread an allocation counter `alloc : Nat`: every freshly
constructed framework object (memory, agent) receives the current
counter value as its `objId` and the counter is bumped.  In-place
mutation (`memory.clear()`) preserves `objId`.  Fallible Python code
(raised exceptions) is embedded as `Except EngineError`.
-/

/-- Roles of this library's `ChatMessage` type. -/
inductive MessageRole
  | system
  | user
  | assistant
  | function
deriving DecidableEq, Repr

/-- This library's chat message: a role plus string content. -/
structure ChatMessage where
  role : MessageRole
  content : String
deriving DecidableEq, Repr

/-- The external framework's message variants (System/Human/AI/Function),
each carrying string content. -/
inductive LCMessage
  | system (content : String)
  | human (content : String)
  | ai (content : String)
  | function (content : String)
deriving DecidableEq, Repr

/-- Modelled from the spec: `to_lc_messages`
(`llama_index.llms.langchain_utils`, not under src/) translates this
library's messages to the external framework's message format; the spec
states the translation round trip preserves each message's role and
content, so each role maps to the corresponding framework variant. -/
def to_lc_messages (messages : List ChatMessage) : List LCMessage :=
  messages.map fun m =>
    match m.role with
    | .system => .system m.content
    | .user => .human m.content
    | .assistant => .ai m.content
    | .function => .function m.content

/-- Modelled from the spec: `from_lc_messages`
(`llama_index.llms.langchain_utils`, not under src/) translates the
external framework's messages back to this library's messages,
variant-wise, preserving role and content. -/
def from_lc_messages (lc_messages : List LCMessage) : List ChatMessage :=
  lc_messages.map fun m =>
    match m with
    | .system c => ⟨.system, c⟩
    | .human c => ⟨.user, c⟩
    | .ai c => ⟨.assistant, c⟩
    | .function c => ⟨.function, c⟩

/-- The external framework's raw language model.  `isChatModel` is the
capability bit the source reads through `is_chat_model`. -/
structure LCLLM where
  llmId : Nat
  isChatModel : Bool
deriving DecidableEq, Repr

/-- Modelled from the spec: `is_chat_model`
(`llama_index.llms.langchain_utils`, not under src/) reports whether the
underlying language model exposes a chat-style interface. -/
def is_chat_model (llm : LCLLM) : Bool :=
  llm.isChatModel

/-- This library's LangChain LLM adapter; `.llm` is the wrapped raw model. -/
structure LangChainLLM where
  llm : LCLLM
deriving DecidableEq, Repr

/-- A language model held by a predictor: either this library's
LangChain adapter or some other (unsupported) implementation. -/
inductive LLM
  | langchain (l : LangChainLLM)
  | otherLLM (tag : Nat)
deriving DecidableEq, Repr

/-- A service context's LLM predictor: the supported `LLMPredictor`
(wrapping an `LLM`) or some other `BaseLLMPredictor` subclass. -/
inductive BaseLLMPredictor
  | llmPredictor (llm : LLM)
  | otherPredictor (tag : Nat)
deriving DecidableEq, Repr

/-- The slice of `ServiceContext` the source reads. -/
structure ServiceContext where
  llm_predictor : BaseLLMPredictor
deriving DecidableEq, Repr

/-- Kind tag of a `BaseChatMemory` object: the external framework's
`ConversationBufferMemory` (with its configuration fields) or some
other memory subclass. -/
inductive MemoryKind
  | conversationBuffer (memory_key : String) (return_messages : Bool)
  | otherMemory (tag : Nat)
deriving DecidableEq, Repr

/-- A `BaseChatMemory` object: an object identity, a kind tag, and the
message list of its `chat_memory`. -/
structure BaseChatMemory where
  objId : Nat
  kind : MemoryKind
  messages : List LCMessage
deriving DecidableEq, Repr

/-- `memory.clear()`: empties the stored messages in place (identity and
configuration are untouched). -/
def BaseChatMemory.clear (m : BaseChatMemory) : BaseChatMemory :=
  { m with messages := [] }

/-- Whether the memory object is a `ConversationBufferMemory`
(the `isinstance` test in the `chat_history` accessor). -/
def BaseChatMemory.isBuffer (m : BaseChatMemory) : Bool :=
  match m.kind with
  | .conversationBuffer _ _ => true
  | .otherMemory _ => false

/-- An abstract query engine (only its identity matters here). -/
structure BaseQueryEngine where
  engineId : Nat
deriving DecidableEq, Repr

/-- A query-engine tool: a query engine plus name and description. -/
structure QueryEngineTool where
  query_engine : BaseQueryEngine
  name : String
  description : String
deriving DecidableEq, Repr

/-- Modelled from the spec: `QueryEngineTool.from_defaults`
(`llama_index.tools.query_engine`, not under src/) wraps a query engine
as a tool, defaulting the name and description when absent. -/
def QueryEngineTool.from_defaults (query_engine : BaseQueryEngine)
    (name : Option String) (description : Option String) : QueryEngineTool :=
  { query_engine := query_engine
    name := name.getD "query_engine_tool"
    description := description.getD "useful for when you want to answer queries" }

/-- The external framework's tool wrapper produced by `as_langchain_tool`. -/
structure LCTool where
  query_engine : BaseQueryEngine
  name : String
  description : String
deriving DecidableEq, Repr

/-- Modelled from the spec: `QueryEngineTool.as_langchain_tool`
(`llama_index.tools.query_engine`, not under src/) exposes the tool in
the external framework's tool format. -/
def QueryEngineTool.as_langchain_tool (t : QueryEngineTool) : LCTool :=
  { query_engine := t.query_engine, name := t.name, description := t.description }

/-- The two external agent variants the source selects between. -/
inductive AgentType
  | chatConversationalReactDescription
  | conversationalReactDescription
deriving DecidableEq, Repr

/-- The external `AgentExecutor` as configured by the source's call to
the framework's agent factory: object identity plus every argument the
source passes (tools, raw llm, variant, memory reference, verbosity,
extra keyword arguments). -/
structure AgentExecutor where
  objId : Nat
  tools : List LCTool
  llm : LCLLM
  agent : AgentType
  memoryId : Nat
  verbose : Bool
  agent_kwargs : List (String × String)
deriving DecidableEq, Repr

/-- Python errors the source raises. -/
inductive EngineError
  | valueError (msg : String)
  | notImplementedError (msg : String)
deriving DecidableEq, Repr

/-- The non-streaming chat response wrapper. -/
structure AgentChatResponse where
  response : String
deriving DecidableEq, Repr

/-- The streaming chat response type (never constructed by this engine). -/
structure StreamingAgentChatResponse where
  response_gen : List String
deriving DecidableEq, Repr

/-- The engine instance: the five fields `__init__` stores plus the
agent built from them. -/
structure ReActChatEngine where
  _query_engine_tools : List QueryEngineTool
  _llm : LangChainLLM
  _memory : BaseChatMemory
  _system_prompt : Option String
  _verbose : Bool
  _agent : AgentExecutor
deriving DecidableEq, Repr

/-- `ReActChatEngine._create_agent`: wraps tools for the framework,
selects the agent variant from `is_chat_model`, attaches the system
prompt under the variant-specific keyword, and hands everything to the
framework's agent factory.  `fresh` is the identity allocated to the new
agent object. -/
def _create_agent (query_engine_tools : List QueryEngineTool)
    (llm : LangChainLLM) (memory : BaseChatMemory)
    (system_prompt : Option String) (verbose : Bool)
    (fresh : Nat) : AgentExecutor :=
  let tools := query_engine_tools.map QueryEngineTool.as_langchain_tool
  if is_chat_model llm.llm then
    { objId := fresh
      tools := tools
      llm := llm.llm
      agent := .chatConversationalReactDescription
      memoryId := memory.objId
      verbose := verbose
      agent_kwargs :=
        match system_prompt with
        | some s => [("system_message", s)]
        | none => [] }
  else
    { objId := fresh
      tools := tools
      llm := llm.llm
      agent := .conversationalReactDescription
      memoryId := memory.objId
      verbose := verbose
      agent_kwargs :=
        match system_prompt with
        | some s => [("prefix", s)]
        | none => [] }

namespace ReActChatEngine

/-- `ReActChatEngine.__init__`: stores the five fields and builds the
agent; `alloc` supplies the fresh identity for the constructed agent. -/
def init (query_engine_tools : List QueryEngineTool) (llm : LangChainLLM)
    (memory : BaseChatMemory) (system_prompt : Option String)
    (verbose : Bool) (alloc : Nat) : ReActChatEngine × Nat :=
  ({ _query_engine_tools := query_engine_tools
     _llm := llm
     _memory := memory
     _system_prompt := system_prompt
     _verbose := verbose
     _agent := _create_agent query_engine_tools llm memory system_prompt verbose alloc },
   alloc + 1)

/-- `ReActChatEngine.from_defaults`.  `default_service_context` stands
for the result of `ServiceContext.from_defaults()` used when no service
context is supplied.  The checks appear in source order: predictor type,
LLM adapter type, memory/chat-history exclusivity, default memory
construction, prefix-messages rejection, then `__init__`. -/
def from_defaults (default_service_context : ServiceContext)
    (query_engine_tools : List QueryEngineTool)
    (service_context : Option ServiceContext)
    (memory : Option BaseChatMemory)
    (chat_history : Option (List ChatMessage))
    (verbose : Bool)
    (system_prompt : Option String)
    (prefix_messages : Option (List ChatMessage))
    (alloc : Nat) : Except EngineError (ReActChatEngine × Nat) :=
  let sc := service_context.getD default_service_context
  match sc.llm_predictor with
  | .otherPredictor _ => .error (.valueError "Currently only supports LLMPredictor.")
  | .llmPredictor lp =>
    match lp with
    | .otherLLM _ => .error (.valueError "Currently only supports LangChain based LLM.")
    | .langchain llm =>
      let lc_llm := llm.llm
      if chat_history.isSome && memory.isSome then
        .error (.valueError "Cannot specify both memory and chat_history.")
      else
        let memAlloc : BaseChatMemory × Nat :=
          match memory with
          | some m => (m, alloc)
          | none =>
            let lc_messages := to_lc_messages (chat_history.getD [])
            ({ objId := alloc
               kind := .conversationBuffer "chat_history" (is_chat_model lc_llm)
               messages := lc_messages }, alloc + 1)
        if prefix_messages.isSome then
          .error (.notImplementedError "prefix_messages is not supported for ReActChatEngine.")
        else
          .ok (init query_engine_tools llm memAlloc.1 system_prompt verbose memAlloc.2)

/-- `ReActChatEngine.from_query_engine`: wraps the query engine as a
single tool and delegates to `from_defaults`. -/
def from_query_engine (default_service_context : ServiceContext)
    (query_engine : BaseQueryEngine)
    (name : Option String) (description : Option String)
    (service_context : Option ServiceContext)
    (memory : Option BaseChatMemory)
    (chat_history : Option (List ChatMessage))
    (verbose : Bool)
    (alloc : Nat) : Except EngineError (ReActChatEngine × Nat) :=
  let query_engine_tool := QueryEngineTool.from_defaults query_engine name description
  from_defaults default_service_context [query_engine_tool] service_context
    memory chat_history verbose none none alloc

/-- The `chat_history` property: asserts the memory is a
`ConversationBufferMemory` (returning `none` models the assertion
failure), then translates the stored messages back. -/
def chat_history (e : ReActChatEngine) : Option (List ChatMessage) :=
  match e._memory.kind with
  | .conversationBuffer _ _ => some (from_lc_messages e._memory.messages)
  | .otherMemory _ => none

/-- `ReActChatEngine.chat`: rejects a per-call history override, else
runs the agent.  `run` is the external framework's synchronous run entry
point, supplied as an oracle returning the response string and the
engine state after the framework's side effects. -/
def chat (run : AgentExecutor → String → String × ReActChatEngine)
    (e : ReActChatEngine) (message : String)
    (chat_history : Option (List ChatMessage)) :
    Except EngineError (AgentChatResponse × ReActChatEngine) :=
  match chat_history with
  | some _ =>
    .error (.notImplementedError "chat_history argument is not supported for ReActChatEngine.")
  | none =>
    let r := run e._agent message
    .ok ({ response := r.1 }, r.2)

/-- `ReActChatEngine.achat`: same contract as `chat` via the external
framework's asynchronous run entry point (cooperative single-threaded
model, so the awaited call is again an oracle). -/
def achat (arun : AgentExecutor → String → String × ReActChatEngine)
    (e : ReActChatEngine) (message : String)
    (chat_history : Option (List ChatMessage)) :
    Except EngineError (AgentChatResponse × ReActChatEngine) :=
  match chat_history with
  | some _ =>
    .error (.notImplementedError "chat_history argument is not supported for ReActChatEngine.")
  | none =>
    let r := arun e._agent message
    .ok ({ response := r.1 }, r.2)

/-- `ReActChatEngine.stream_chat`: unconditionally raises. -/
def stream_chat (e : ReActChatEngine) (message : String)
    (chat_history : Option (List ChatMessage)) :
    Except EngineError (StreamingAgentChatResponse × ReActChatEngine) :=
  .error (.notImplementedError "stream_chat() is not supported for ReActChatEngine.")

/-- `ReActChatEngine.astream_chat`: unconditionally raises. -/
def astream_chat (e : ReActChatEngine) (message : String)
    (chat_history : Option (List ChatMessage)) :
    Except EngineError (StreamingAgentChatResponse × ReActChatEngine) :=
  .error (.notImplementedError "astream_chat() is not supported for ReActChatEngine.")

/-- `ReActChatEngine.reset`: clears the memory in place, then rebuilds
the agent from the engine's fields over the cleared memory; `alloc`
supplies the fresh identity for the rebuilt agent. -/
def reset (e : ReActChatEngine) (alloc : Nat) : ReActChatEngine × Nat :=
  let memory := e._memory.clear
  ({ e with
     _memory := memory
     _agent := _create_agent e._query_engine_tools e._llm memory
       e._system_prompt e._verbose alloc },
   alloc + 1)

end ReActChatEngine

/-! Concrete sample objects used by witnesses. -/

/-- A chat-style LangChain LLM adapter. -/
def sampleLLM : LangChainLLM := ⟨⟨0, true⟩⟩

/-- A service context holding a supported predictor over `sampleLLM`. -/
def sampleSC : ServiceContext := ⟨.llmPredictor (.langchain sampleLLM)⟩

/-- A service context whose predictor is not an `LLMPredictor`. -/
def sampleBadSC : ServiceContext := ⟨.otherPredictor 0⟩

/-- A `ConversationBufferMemory` object. -/
def sampleMemory : BaseChatMemory := ⟨5, .conversationBuffer "chat_history" true, []⟩

/-- A memory object that is not a `ConversationBufferMemory`. -/
def sampleOtherMemory : BaseChatMemory := ⟨6, .otherMemory 0, []⟩

/-- A query-engine tool. -/
def sampleTool : QueryEngineTool := ⟨⟨0⟩, "tool", "a query tool"⟩

/-- A chat message. -/
def sampleMessage : ChatMessage := ⟨.user, "hello"⟩

/-- An engine built by the constructor over `sampleMemory`. -/
def sampleEngine : ReActChatEngine :=
  (ReActChatEngine.init [sampleTool] sampleLLM sampleMemory none false 0).1

/-- An engine built by the constructor over a non-buffer memory. -/
def sampleOtherEngine : ReActChatEngine :=
  (ReActChatEngine.init [sampleTool] sampleLLM sampleOtherMemory none false 0).1

/-- The engine produced by `from_defaults sampleSC [sampleTool] none none
(some [sampleMessage]) false none none 0`. -/
def sampleHistoryEngine : ReActChatEngine :=
  (ReActChatEngine.init [sampleTool] sampleLLM
    ⟨0, .conversationBuffer "chat_history" true, to_lc_messages [sampleMessage]⟩
    none false 1).1

/-- Translating to the external framework's message format and back is
the identity on message lists. -/
theorem from_to_lc_messages (msgs : List ChatMessage) :
    from_lc_messages (to_lc_messages msgs) = msgs := by
  induction msgs with
  | nil => rfl
  | cons m rest ih =>
    cases m with
    | mk role content =>
      cases role <;>
        simp only [to_lc_messages, from_lc_messages, List.map_cons] at ih ⊢ <;>
        exact congrArg _ ih

/-- With both `memory` and `chat_history` supplied, `from_defaults`
returns a `ValueError` whatever else is passed. -/
theorem from_defaults_both_error
    (default_service_context : ServiceContext)
    (query_engine_tools : List QueryEngineTool)
    (service_context : Option ServiceContext)
    (memory : Option BaseChatMemory)
    (chat_history : Option (List ChatMessage))
    (verbose : Bool) (system_prompt : Option String)
    (prefix_messages : Option (List ChatMessage)) (alloc : Nat)
    (hm : memory.isSome = true) (hh : chat_history.isSome = true) :
    ∃ msg, ReActChatEngine.from_defaults default_service_context query_engine_tools
        service_context memory chat_history verbose system_prompt prefix_messages alloc
      = .error (.valueError msg) := by
  rcases hsc : (service_context.getD default_service_context).llm_predictor with lp | tag
  · rcases lp with l | t
    · refine ⟨"Cannot specify both memory and chat_history.", ?_⟩
      simp [ReActChatEngine.from_defaults, hsc, hm, hh]
    · refine ⟨"Currently only supports LangChain based LLM.", ?_⟩
      simp [ReActChatEngine.from_defaults, hsc]
  · refine ⟨"Currently only supports LLMPredictor.", ?_⟩
    simp [ReActChatEngine.from_defaults, hsc]

/-- C1: whenever both `memory` and `chat_history` are non-None,
`from_defaults` (and `from_query_engine`, which delegates to it) fails
with a validation error (`ValueError`) and returns no engine instance:
memory and explicit chat history are mutually exclusive at
construction time. -/
theorem from_defaults_rejects_memory_with_chat_history
    (default_service_context : ServiceContext)
    (query_engine_tools : List QueryEngineTool)
    (query_engine : BaseQueryEngine)
    (name description : Option String)
    (service_context : Option ServiceContext)
    (memory : Option BaseChatMemory)
    (chat_history : Option (List ChatMessage))
    (verbose : Bool) (system_prompt : Option String)
    (prefix_messages : Option (List ChatMessage)) (alloc : Nat)
    (hm : memory.isSome = true) (hh : chat_history.isSome = true) :
    (∃ msg, ReActChatEngine.from_defaults default_service_context query_engine_tools
        service_context memory chat_history verbose system_prompt prefix_messages alloc
      = .error (.valueError msg)) ∧
    (∃ msg, ReActChatEngine.from_query_engine default_service_context query_engine
        name description service_context memory chat_history verbose alloc
      = .error (.valueError msg)) :=
  ⟨from_defaults_both_error default_service_context query_engine_tools service_context
      memory chat_history verbose system_prompt prefix_messages alloc hm hh,
   from_defaults_both_error default_service_context
      [QueryEngineTool.from_defaults query_engine name description] service_context
      memory chat_history verbose none none alloc hm hh⟩

/-- Closed witness for C1 at a concrete input. -/
theorem from_defaults_rejects_memory_with_chat_history_witness :
    (some sampleMemory).isSome = true ∧ (some [sampleMessage]).isSome = true ∧
    ((∃ msg, ReActChatEngine.from_defaults sampleSC [sampleTool] none
        (some sampleMemory) (some [sampleMessage]) false none none 0
      = .error (.valueError msg)) ∧
    (∃ msg, ReActChatEngine.from_query_engine sampleSC ⟨0⟩ none none none
        (some sampleMemory) (some [sampleMessage]) false 0
      = .error (.valueError msg))) :=
  ⟨rfl, rfl,
   from_defaults_rejects_memory_with_chat_history sampleSC [sampleTool] ⟨0⟩ none none
     none (some sampleMemory) (some [sampleMessage]) false none none 0 rfl rfl⟩

/-- C2: `stream_chat` and `astream_chat` fail with a not-implemented
error on every engine instance and every argument pair; since the result
is this fixed error for all inputs, neither method returns a value,
depends on or changes the engine's state, or invokes the agent. -/
theorem stream_chat_always_fails (e : ReActChatEngine) (message : String)
    (chat_history : Option (List ChatMessage)) :
    e.stream_chat message chat_history
      = .error (.notImplementedError "stream_chat() is not supported for ReActChatEngine.") ∧
    e.astream_chat message chat_history
      = .error (.notImplementedError "astream_chat() is not supported for ReActChatEngine.") :=
  ⟨rfl, rfl⟩

/-- C3: `chat` and `achat` with a non-null `chat_history` override
(`some h`, including `h = []`) return a not-implemented error for every
oracle modelling the agent's run entry point — so the agent is never
invoked — and, the result being an error, no state change is produced. -/
theorem chat_rejects_history_override
    (run arun : AgentExecutor → String → String × ReActChatEngine)
    (e : ReActChatEngine) (message : String) (h : List ChatMessage) :
    ReActChatEngine.chat run e message (some h)
      = .error (.notImplementedError "chat_history argument is not supported for ReActChatEngine.") ∧
    ReActChatEngine.achat arun e message (some h)
      = .error (.notImplementedError "chat_history argument is not supported for ReActChatEngine.") :=
  ⟨rfl, rfl⟩

/-- C6: `_create_agent` selects the chat-conversational variant exactly
when the model is chat-style, and attaches the system prompt (when
present) under "system_message" for the chat variant and under the
completion-style keyword otherwise. -/
theorem create_agent_variant_and_prompt_key
    (query_engine_tools : List QueryEngineTool) (llm : LangChainLLM)
    (memory : BaseChatMemory) (system_prompt : Option String)
    (verbose : Bool) (fresh : Nat) :
    (_create_agent query_engine_tools llm memory system_prompt verbose fresh).agent
      = (if is_chat_model llm.llm then AgentType.chatConversationalReactDescription
         else AgentType.conversationalReactDescription) ∧
    (_create_agent query_engine_tools llm memory system_prompt verbose fresh).agent_kwargs
      = (match system_prompt with
         | some s => [((if is_chat_model llm.llm then "system_message" else "prefix"), s)]
         | none => []) := by
  unfold _create_agent
  cases hc : is_chat_model llm.llm <;> cases system_prompt <;> simp [hc]

/-- C7: whenever `prefix_messages` is non-None (including the empty
list), `from_defaults` fails with an error and returns no engine. -/
theorem from_defaults_rejects_prefix_messages
    (default_service_context : ServiceContext)
    (query_engine_tools : List QueryEngineTool)
    (service_context : Option ServiceContext)
    (memory : Option BaseChatMemory)
    (chat_history : Option (List ChatMessage))
    (verbose : Bool) (system_prompt : Option String)
    (pm : List ChatMessage) (alloc : Nat) :
    ∃ err, ReActChatEngine.from_defaults default_service_context query_engine_tools
        service_context memory chat_history verbose system_prompt (some pm) alloc
      = .error err := by
  rcases hsc : (service_context.getD default_service_context).llm_predictor with lp | tag
  · rcases lp with l | t
    · rcases hb : chat_history.isSome && memory.isSome with _ | _
      · refine ⟨.notImplementedError "prefix_messages is not supported for ReActChatEngine.", ?_⟩
        simp [ReActChatEngine.from_defaults, hsc, hb]
      · refine ⟨.valueError "Cannot specify both memory and chat_history.", ?_⟩
        simp [ReActChatEngine.from_defaults, hsc, hb]
    · refine ⟨.valueError "Currently only supports LangChain based LLM.", ?_⟩
      simp [ReActChatEngine.from_defaults, hsc]
  · refine ⟨.valueError "Currently only supports LLMPredictor.", ?_⟩
    simp [ReActChatEngine.from_defaults, hsc]

/-- C10: `reset` changes nothing except the memory's contents and the
agent: the tool list, LLM handle, system prompt, verbosity flag, the
memory object's identity and configuration are all preserved, and the
rebuilt agent is constructed over that same (now cleared) memory
object. -/
theorem reset_frame (e : ReActChatEngine) (alloc : Nat) :
    ((e.reset alloc).1)._query_engine_tools = e._query_engine_tools ∧
    ((e.reset alloc).1)._llm = e._llm ∧
    ((e.reset alloc).1)._system_prompt = e._system_prompt ∧
    ((e.reset alloc).1)._verbose = e._verbose ∧
    ((e.reset alloc).1)._memory.objId = e._memory.objId ∧
    ((e.reset alloc).1)._memory.kind = e._memory.kind ∧
    ((e.reset alloc).1)._agent.memoryId = ((e.reset alloc).1)._memory.objId := by
  refine ⟨rfl, rfl, rfl, rfl, rfl, rfl, ?_⟩
  simp only [ReActChatEngine.reset, _create_agent, BaseChatMemory.clear]
  cases is_chat_model e._llm.llm <;> rfl

/-- C4: with `alloc` fresh for the live agent (allocator invariant),
`reset` leaves the memory's message list empty and installs an agent
distinct from the one live before the call, rebuilt by `_create_agent`
from the engine's tools, LLM, (cleared) memory, system prompt and
verbosity. -/
theorem reset_clears_memory_and_rebuilds_agent
    (e : ReActChatEngine) (alloc : Nat) (hlive : e._agent.objId < alloc) :
    ((e.reset alloc).1)._memory.messages = [] ∧
    ((e.reset alloc).1)._agent ≠ e._agent ∧
    ((e.reset alloc).1)._agent
      = _create_agent e._query_engine_tools e._llm e._memory.clear
          e._system_prompt e._verbose alloc := by
  refine ⟨rfl, ?_, rfl⟩
  intro hEq
  have h1 : ((e.reset alloc).1)._agent.objId = alloc := by
    simp only [ReActChatEngine.reset, _create_agent]
    cases is_chat_model e._llm.llm <;> rfl
  rw [hEq] at h1
  omega

/-- Closed witness for C4 at a concrete engine. -/
theorem reset_clears_memory_and_rebuilds_agent_witness :
    sampleEngine._agent.objId < 1 ∧
    (((sampleEngine.reset 1).1)._memory.messages = [] ∧
     ((sampleEngine.reset 1).1)._agent ≠ sampleEngine._agent ∧
     ((sampleEngine.reset 1).1)._agent
       = _create_agent sampleEngine._query_engine_tools sampleEngine._llm
           sampleEngine._memory.clear sampleEngine._system_prompt
           sampleEngine._verbose 1) :=
  ⟨by decide, reset_clears_memory_and_rebuilds_agent sampleEngine 1 (by decide)⟩

/-- C5: when `from_defaults` is given `chat_history = some h` and no
memory and succeeds, the resulting engine's `chat_history` property
returns exactly `h`: the translation to the external message format and
back is a lossless round trip. -/
theorem chat_history_roundtrip
    (default_service_context : ServiceContext)
    (query_engine_tools : List QueryEngineTool)
    (service_context : Option ServiceContext)
    (h : List ChatMessage) (verbose : Bool) (system_prompt : Option String)
    (alloc : Nat) (e : ReActChatEngine) (allocOut : Nat)
    (hok : ReActChatEngine.from_defaults default_service_context query_engine_tools
        service_context none (some h) verbose system_prompt none alloc
      = .ok (e, allocOut)) :
    e.chat_history = some h := by
  rcases hsc : (service_context.getD default_service_context).llm_predictor with lp | tag
  · rcases lp with l | t
    · simp only [ReActChatEngine.from_defaults, ReActChatEngine.init, hsc,
        Option.isSome_some, Option.isSome_none, Bool.and_false, Bool.false_eq_true,
        if_false, Option.getD_some, Except.ok.injEq, Prod.mk.injEq] at hok
      obtain ⟨he, _⟩ := hok
      rw [← he]
      simp [ReActChatEngine.chat_history, from_to_lc_messages]
    · simp [ReActChatEngine.from_defaults, hsc] at hok
  · simp [ReActChatEngine.from_defaults, hsc] at hok

/-- Closed witness for C5 at a concrete input. -/
theorem chat_history_roundtrip_witness :
    ReActChatEngine.from_defaults sampleSC [sampleTool] none none
        (some [sampleMessage]) false none none 0
      = .ok (sampleHistoryEngine, 2) ∧
    sampleHistoryEngine.chat_history = some [sampleMessage] :=
  ⟨rfl,
   chat_history_roundtrip sampleSC [sampleTool] none [sampleMessage] false none 0
     sampleHistoryEngine 2 rfl⟩

/-- The configuration the source rejects before building anything: the
predictor is not an `LLMPredictor`, or its model is not a
LangChain-based LLM. -/
def unsupported_llm_config (sc : ServiceContext) : Bool :=
  match sc.llm_predictor with
  | .llmPredictor (.langchain _) => false
  | .llmPredictor (.otherLLM _) => true
  | .otherPredictor _ => true

/-- C8: with an unsupported predictor or LLM adapter in the (resolved)
service context, `from_defaults` fails with a `ValueError` whatever the
other arguments are — no memory object and no engine is built, nothing
is retried or partially applied. -/
theorem from_defaults_rejects_unsupported_llm
    (default_service_context : ServiceContext)
    (query_engine_tools : List QueryEngineTool)
    (service_context : Option ServiceContext)
    (memory : Option BaseChatMemory)
    (chat_history : Option (List ChatMessage))
    (verbose : Bool) (system_prompt : Option String)
    (prefix_messages : Option (List ChatMessage)) (alloc : Nat)
    (hbad : unsupported_llm_config (service_context.getD default_service_context) = true) :
    ∃ msg, ReActChatEngine.from_defaults default_service_context query_engine_tools
        service_context memory chat_history verbose system_prompt prefix_messages alloc
      = .error (.valueError msg) := by
  rcases hsc : (service_context.getD default_service_context).llm_predictor with lp | tag
  · rcases lp with l | t
    · exfalso
      simp [unsupported_llm_config, hsc] at hbad
    · refine ⟨"Currently only supports LangChain based LLM.", ?_⟩
      simp [ReActChatEngine.from_defaults, hsc]
  · refine ⟨"Currently only supports LLMPredictor.", ?_⟩
    simp [ReActChatEngine.from_defaults, hsc]

/-- Closed witness for C8 at a concrete input. -/
theorem from_defaults_rejects_unsupported_llm_witness :
    unsupported_llm_config ((some sampleBadSC).getD sampleSC) = true ∧
    (∃ msg, ReActChatEngine.from_defaults sampleSC [sampleTool] (some sampleBadSC)
        none none false none none 0
      = .error (.valueError msg)) :=
  ⟨rfl,
   from_defaults_rejects_unsupported_llm sampleSC [sampleTool] (some sampleBadSC)
     none none false none none 0 rfl⟩

/-- C9: the `chat_history` accessor hits its assertion (returns no
message list) exactly when the engine's memory object is not a
`ConversationBufferMemory`; on buffer memories it is total. -/
theorem chat_history_requires_buffer_memory (e : ReActChatEngine) :
    e.chat_history = none ↔ e._memory.isBuffer = false := by
  cases hk : e._memory.kind <;>
    simp [ReActChatEngine.chat_history, BaseChatMemory.isBuffer, hk]

/-- Closed witness for C9: an engine over a non-buffer memory, where the
accessor fails. -/
theorem chat_history_requires_buffer_memory_witness :
    sampleOtherEngine.chat_history = none :=
  (chat_history_requires_buffer_memory sampleOtherEngine).mpr (by decide)
